import Mathlib

/-!
# Player end point: stream bridging and playback state machine

A shallow embedding of `src/kmsplayerendpoint.c`.  The element owns an internal
pipeline holding a `uridecodebin`; for every pad the decoder exposes the
callback `pad_added` creates an `appsrc` inside the element and an `appsink`
inside the internal pipeline, records both on the pad (`g_object_set_data`) and
connects `new_sample_cb` and `eos_cb`; `pad_removed` undoes this.

The mutable object graph is an explicit `World` value that every callback
takes and returns.  Calls into GStreamer whose outcome is decided outside this
file (caps intersection, linking) are fields of `Env`.
-/

namespace KmsPlayerEndPoint

/-! ## Constants of the source file -/

/-- Key under which `pad_added` stores the appsrc on the pad. -/
def APPSRC_DATA : String := "appsrc_data"

/-- Key under which `pad_added` stores the appsink on the pad. -/
def APPSINK_DATA : String := "appsink_data"

/-- The 64-bit all-ones value GStreamer uses for an unset time or offset. -/
def GST_CLOCK_TIME_NONE : Nat := 2 ^ 64 - 1

/-- The value of `GST_MESSAGE_EOS` in the `GstMessageType` flags. -/
def GST_MESSAGE_EOS : Nat := 1

/-! ## Data model -/

/-- Run states of a GStreamer element. -/
inductive GstState
  | GST_STATE_VOID_PENDING
  | GST_STATE_NULL
  | GST_STATE_READY
  | GST_STATE_PAUSED
  | GST_STATE_PLAYING
  deriving DecidableEq, Repr

/-- Lifecycle states reported through `change_state` of the URI end point class. -/
inductive KmsUriEndPointState
  | KMS_URI_END_POINT_STATE_STOP
  | KMS_URI_END_POINT_STATE_START
  | KMS_URI_END_POINT_STATE_PAUSE
  deriving DecidableEq, Repr

/-- Direction of a pad. -/
inductive GstPadDirection
  | GST_PAD_UNKNOWN
  | GST_PAD_SRC
  | GST_PAD_SINK
  deriving DecidableEq, Repr

/-- Values a buffer push can return. -/
inductive GstFlowReturn
  | GST_FLOW_OK
  | GST_FLOW_NOT_LINKED
  | GST_FLOW_FLUSHING
  | GST_FLOW_EOS
  | GST_FLOW_NOT_NEGOTIATED
  | GST_FLOW_ERROR
  | GST_FLOW_NOT_SUPPORTED
  deriving DecidableEq, Repr

/-- Replies of a bus sync handler. -/
inductive GstBusSyncReply
  | GST_BUS_DROP
  | GST_BUS_PASS
  | GST_BUS_ASYNC
  deriving DecidableEq, Repr

/-- Caps in their serialised form. -/
abbrev GstCaps := String

/-- A pad of the decoder: identity, direction and the caps a query returns. -/
structure GstPad where
  id : Nat
  direction : GstPadDirection
  caps : GstCaps
  deriving DecidableEq, Repr

/-- One keyed datum attached to an object with `g_object_set_data`. -/
structure QData where
  obj : Nat
  key : String
  data : Nat
  deriving DecidableEq, Repr

/-- The two callbacks `pad_added` connects. -/
inductive Callback
  | new_sample_cb
  | eos_cb
  deriving DecidableEq, Repr

/-- One `g_signal_connect` registration. -/
structure SignalConnection where
  emitter : Nat
  signal : String
  handler : Callback
  user_data : Nat
  deriving DecidableEq, Repr

/-- Lines written with `GST_ERROR` (debug log only, nothing is posted on a bus). -/
inductive LogEntry
  | could_not_link (appsrc agnosticbin : Nat)
  | no_appsink_found (pad : Nat)
  | could_not_block (appsink : Nat)
  | could_not_send_buffer (ret : GstFlowReturn)
  deriving DecidableEq, Repr

/-- Error messages posted on the element bus with `GST_ELEMENT_ERROR`. -/
inductive ElementError
  | CORE_CAPS (text : String)
  deriving DecidableEq, Repr

/-- What the code consults but does not decide itself: the two caps families of
`kmsagnosticcaps.h` and the outcome of the GStreamer calls. -/
structure Env where
  KMS_AGNOSTIC_AUDIO_CAPS : GstCaps
  KMS_AGNOSTIC_VIDEO_CAPS : GstCaps
  gst_caps_can_intersect : GstCaps → GstCaps → Bool
  gst_element_link : Nat → Nat → Bool
  gst_pad_link : Nat → Nat → Bool

/-- The object graph around one player end point. -/
structure World where
  /-- next unused element identity, consumed by `gst_element_factory_make` -/
  next_element : Nat
  /-- the audio agnosticbin of the owning `KmsElement` -/
  audio_agnosticbin : Nat
  /-- the video agnosticbin of the owning `KmsElement` -/
  video_agnosticbin : Nat
  /-- `self->priv->uridecodebin` -/
  uridecodebin : Nat
  /-- run state of the element itself, driven by its own parent -/
  self_state : GstState
  /-- children of `GST_BIN (self)` -/
  self_children : List Nat
  /-- children of `self->priv->pipeline` -/
  pipeline_children : List Nat
  /-- run state of elements created by `pad_added` -/
  element_state : List (Nat × GstState)
  /-- elements whose state is locked -/
  locked : List Nat
  /-- element links made with `gst_element_link` -/
  links : List (Nat × Nat)
  /-- pad to appsink links made with `gst_pad_link` -/
  pad_links : List (Nat × Nat)
  /-- keyed data on pads -/
  qdata : List QData
  /-- signal handlers connected on appsinks -/
  connections : List SignalConnection
  /-- messages posted on the error channel of the element -/
  errors : List ElementError
  /-- `GST_ERROR` lines -/
  log : List LogEntry
  /-- state last requested for the internal pipeline with `gst_element_set_state` -/
  pipeline_state : GstState
  /-- pads the decoder currently exposes -/
  decoder_pads : List GstPad
  /-- the `uri` property of the uridecodebin -/
  uridecodebin_uri : Option String
  /-- `KMS_URI_END_POINT (self)->uri` -/
  uri : Option String
  /-- lifecycle state last reported with `change_state` -/
  state : KmsUriEndPointState
  /-- number of emissions of the `eos` signal of the element -/
  eos_signals : Nat
  deriving DecidableEq, Repr

/-! ## GLib and GStreamer primitives on the world -/

/-- Does the entry belong to object `obj` under `key`? -/
def QData.is (e : QData) (obj : Nat) (key : String) : Bool :=
  e.obj == obj && e.key == key

/-- The datum stored on `obj` under `key`, if any. -/
def g_object_get_data (d : List QData) (obj : Nat) (key : String) : Option Nat :=
  (d.find? (fun e => e.is obj key)).map (fun e => e.data)

/-- Store `data` on `obj` under `key`, replacing an earlier datum. -/
def g_object_set_data (d : List QData) (obj : Nat) (key : String) (data : Nat) :
    List QData :=
  ⟨obj, key, data⟩ :: d.filter (fun e => !e.is obj key)

/-- Remove the datum on `obj` under `key` and hand it to the caller. -/
def g_object_steal_data (d : List QData) (obj : Nat) (key : String) :
    Option Nat × List QData :=
  (g_object_get_data d obj key, d.filter (fun e => !e.is obj key))

/-- A new element with a fresh identity. -/
def gst_element_factory_make (w : World) : Nat × World :=
  (w.next_element, { w with next_element := w.next_element + 1 })

/-- Set the run state of one of the created elements. -/
def gst_element_set_state (w : World) (e : Nat) (s : GstState) : World :=
  { w with element_state := (e, s) :: w.element_state.filter (fun p => p.1 != e) }

/-- The caps of a pad. -/
def gst_pad_query_caps (pad : GstPad) : GstCaps := pad.caps

/-- The `GST_PAD_IS_SINK` test. -/
def GST_PAD_IS_SINK (pad : GstPad) : Bool :=
  pad.direction == GstPadDirection.GST_PAD_SINK

/-- The macro `GST_ELEMENT_ERROR`: post an error message on the bus of the element. -/
def GST_ELEMENT_ERROR (w : World) (e : ElementError) : World :=
  { w with errors := w.errors ++ [e] }

/-- The macro `GST_ERROR`: write a line to the debug log. -/
def GST_ERROR (w : World) (l : LogEntry) : World :=
  { w with log := w.log ++ [l] }

/-! ## The callbacks of `kmsplayerendpoint.c` -/

/-- Lines 191-223 of `pad_added`: everything after the agnosticbin is chosen.
The element factory always delivers (the code does not test its result), and
the properties set on the two elements are not tracked. -/
def pad_added_bridge (env : Env) (w : World) (pad : GstPad) (agnosticbin : Nat) : World :=
  -- Create appsrc element and link to agnosticbin
  let (appsrc, w) := gst_element_factory_make w
  let w := { w with self_children := appsrc :: w.self_children }
  let w := gst_element_set_state w appsrc w.self_state
  let w := if env.gst_element_link appsrc agnosticbin then
      { w with links := (appsrc, agnosticbin) :: w.links }
    else
      GST_ERROR w (LogEntry.could_not_link appsrc agnosticbin)
  -- Create appsink and link to pad
  let (appsink, w) := gst_element_factory_make w
  let w := { w with pipeline_children := appsink :: w.pipeline_children }
  let w := gst_element_set_state w appsink w.pipeline_state
  let w := if env.gst_pad_link pad.id appsink then
      { w with pad_links := (pad.id, appsink) :: w.pad_links }
    else w
  let w := { w with qdata := g_object_set_data w.qdata pad.id APPSRC_DATA appsrc }
  let w := { w with qdata := g_object_set_data w.qdata pad.id APPSINK_DATA appsink }
  -- Connect new-sample signal to callback
  let w := { w with connections :=
    w.connections ++ [SignalConnection.mk appsink "new-sample" Callback.new_sample_cb appsrc] }
  { w with connections :=
    w.connections ++ [SignalConnection.mk appsink "eos" Callback.eos_cb appsrc] }

/-- The `pad-added` callback. -/
def pad_added (env : Env) (w : World) (pad : GstPad) : World :=
  let audio_caps := env.KMS_AGNOSTIC_AUDIO_CAPS
  let video_caps := env.KMS_AGNOSTIC_VIDEO_CAPS
  let src_caps := gst_pad_query_caps pad
  if env.gst_caps_can_intersect audio_caps src_caps then
    pad_added_bridge env w pad w.audio_agnosticbin
  else if env.gst_caps_can_intersect video_caps src_caps then
    pad_added_bridge env w pad w.video_agnosticbin
  else
    GST_ELEMENT_ERROR w (ElementError.CORE_CAPS "No agnostic caps provided")

/-- Lines 248-256 of `pad_removed`: take the appsrc out of its parent. -/
def pad_removed_appsrc (w : World) (appsrc : Option Nat) : World :=
  match appsrc with
  | some appsrc =>
    -- GST_OBJECT_PARENT (appsrc) != NULL
    if appsrc ∈ w.self_children then
      let w := { w with
        self_children := w.self_children.filter (fun e => e != appsrc)
        links := w.links.filter (fun l => l.1 != appsrc && l.2 != appsrc) }
      gst_element_set_state w appsrc GstState.GST_STATE_NULL
    else w
  | none => w

/-- Lines 258-269 of `pad_removed`: report a missing appsink, or lock it, stop
it and take it out of the internal pipeline. -/
def pad_removed_appsink (w : World) (pad : GstPad) (appsink : Option Nat) : World :=
  match appsink with
  | none => GST_ERROR w (LogEntry.no_appsink_found pad.id)
  | some appsink =>
    let w := if appsink ∈ w.locked then
        GST_ERROR w (LogEntry.could_not_block appsink)
      else { w with locked := appsink :: w.locked }
    let w := gst_element_set_state w appsink GstState.GST_STATE_NULL
    { w with
      pipeline_children := w.pipeline_children.filter (fun e => e != appsink)
      pad_links := w.pad_links.filter (fun l => l.2 != appsink) }

/-- The `pad-removed` callback. -/
def pad_removed (w : World) (pad : GstPad) : World :=
  if GST_PAD_IS_SINK pad then w
  else
    let (appsink, d) := g_object_steal_data w.qdata pad.id APPSINK_DATA
    let (appsrc, d) := g_object_steal_data d pad.id APPSRC_DATA
    let w := { w with qdata := d }
    let w := pad_removed_appsrc w appsrc
    pad_removed_appsink w pad appsink

/-- Setting the run state of the internal pipeline.  The decoder is a child of
the pipeline: when the pipeline is taken down to NULL the decoder drops every
pad it still exposes and emits `pad-removed` for each, which runs `pad_removed`. -/
def gst_element_set_state_pipeline (w : World) (s : GstState) : World :=
  let w := { w with pipeline_state := s }
  if s = GstState.GST_STATE_NULL then
    w.decoder_pads.foldl pad_removed { w with decoder_pads := [] }
  else w

/-- The `change_state` method of the URI end point class: record the reported state. -/
def change_state (w : World) (s : KmsUriEndPointState) : World :=
  { w with state := s }

/-- The `stopped` method. -/
def kms_player_end_point_stopped (w : World) : World :=
  -- Set internal pipeline to NULL
  let w := gst_element_set_state_pipeline w GstState.GST_STATE_NULL
  change_state w KmsUriEndPointState.KMS_URI_END_POINT_STATE_STOP

/-- The `started` method. -/
def kms_player_end_point_started (w : World) : World :=
  -- Set uri property in uridecodebin
  let w := { w with uridecodebin_uri := w.uri }
  -- Set internal pipeline to playing
  let w := gst_element_set_state_pipeline w GstState.GST_STATE_PLAYING
  change_state w KmsUriEndPointState.KMS_URI_END_POINT_STATE_START

/-- The `paused` method. -/
def kms_player_end_point_paused (w : World) : World :=
  -- Set internal pipeline to paused
  let w := gst_element_set_state_pipeline w GstState.GST_STATE_PAUSED
  change_state w KmsUriEndPointState.KMS_URI_END_POINT_STATE_PAUSE

/-- The bus sync handler: the message type is all it looks at. -/
def bus_sync_signal_handler (w : World) (msg_type : Nat) : GstBusSyncReply × World :=
  let w := if msg_type = GST_MESSAGE_EOS then
      { w with eos_signals := w.eos_signals + 1 }
    else w
  (GstBusSyncReply.GST_BUS_PASS, w)

/-- The instance initialiser: an idle pipeline that holds only the decoder. -/
def kms_player_end_point_init (audio_agnosticbin video_agnosticbin : Nat)
    (uri : Option String) (state : KmsUriEndPointState) (self_state : GstState) : World :=
  let uridecodebin := max audio_agnosticbin video_agnosticbin + 1
  { next_element := uridecodebin + 1
    audio_agnosticbin := audio_agnosticbin
    video_agnosticbin := video_agnosticbin
    uridecodebin := uridecodebin
    self_state := self_state
    self_children := []
    pipeline_children := [uridecodebin]
    element_state := []
    locked := []
    links := []
    pad_links := []
    qdata := []
    connections := []
    errors := []
    log := []
    pipeline_state := GstState.GST_STATE_NULL
    decoder_pads := []
    uridecodebin_uri := none
    uri := uri
    state := state
    eos_signals := 0 }

/-! ## The buffer relay -/

/-- A buffer: its timing metadata (64-bit fields) and its payload. -/
structure GstBuffer where
  pts : Nat
  dts : Nat
  offset : Nat
  offset_end : Nat
  payload : List Nat
  deriving DecidableEq, Repr

/-- A sample pulled from an appsink; its buffer may be missing. -/
structure GstSample where
  buffer : Option GstBuffer
  deriving DecidableEq, Repr

/-- The destination of a relay: the buffers handed to it with `push-buffer`,
oldest first, and the `GST_ERROR` lines the relay wrote. -/
structure AppSrc where
  pushed : List GstBuffer
  log : List LogEntry
  deriving DecidableEq, Repr

/-- Lines 118-121 of `new_sample_cb`: the four assignments to the writable buffer. -/
def reset_timing (buffer : GstBuffer) : GstBuffer :=
  { buffer with
    pts := GST_CLOCK_TIME_NONE
    dts := GST_CLOCK_TIME_NONE
    offset := GST_CLOCK_TIME_NONE
    offset_end := GST_CLOCK_TIME_NONE }

/-- The `new-sample` callback.  `pulled` is what `pull-sample` returned (`none`
for NULL) and `push_ret` is the answer of the appsrc to `push-buffer`. -/
def new_sample_cb (appsrc : AppSrc) (pulled : Option GstSample) (push_ret : GstFlowReturn) :
    GstFlowReturn × AppSrc :=
  match pulled with
  | none => (GstFlowReturn.GST_FLOW_OK, appsrc)
  | some sample =>
    match sample.buffer with
    | none => (GstFlowReturn.GST_FLOW_OK, appsrc)
    | some buffer =>
      let buffer := reset_timing buffer
      let appsrc := { appsrc with pushed := appsrc.pushed ++ [buffer] }
      let ret := push_ret
      let appsrc := if ret ≠ GstFlowReturn.GST_FLOW_OK then
          { appsrc with log := appsrc.log ++ [LogEntry.could_not_send_buffer ret] }
        else appsrc
      (ret, appsrc)

/-- One `new-sample` notification per pulled sample, handled in arrival order. -/
def relay_stream (appsrc : AppSrc) : List (Option GstSample × GstFlowReturn) → AppSrc
  | [] => appsrc
  | (pulled, push_ret) :: rest => relay_stream (new_sample_cb appsrc pulled push_ret).2 rest

/-! ## Events around the element -/

/-- What can happen to the element: the decoder exposes or withdraws a source
pad, the owner calls one of the three playback methods, or a message crosses
the bus of the internal pipeline. -/
inductive Event
  | StreamDiscovered (handle : Nat) (caps : GstCaps)
  | StreamEnded (handle : Nat)
  | start
  | pause
  | stop
  | bus (msg_type : Nat)
  deriving DecidableEq, Repr

/-- Is the event one of the three playback methods? -/
def Event.isPlayback : Event → Bool
  | Event.start => true
  | Event.pause => true
  | Event.stop => true
  | _ => false

/-- The decoder exposes only source pads. -/
def decoder_pad (handle : Nat) (caps : GstCaps) : GstPad :=
  { id := handle, direction := GstPadDirection.GST_PAD_SRC, caps := caps }

/-- Process one event. -/
def step (env : Env) (w : World) : Event → World
  | Event.StreamDiscovered handle caps =>
    let pad := decoder_pad handle caps
    let w := { w with decoder_pads := pad :: w.decoder_pads.filter (fun p => p.id != handle) }
    pad_added env w pad
  | Event.StreamEnded handle =>
    match w.decoder_pads.find? (fun p => p.id == handle) with
    | none => w
    | some pad =>
      let w := { w with decoder_pads := w.decoder_pads.filter (fun p => p.id != handle) }
      pad_removed w pad
  | Event.start => kms_player_end_point_started w
  | Event.pause => kms_player_end_point_paused w
  | Event.stop => kms_player_end_point_stopped w
  | Event.bus msg_type => (bus_sync_signal_handler w msg_type).2

/-- Process a sequence of events, oldest first. -/
def run (env : Env) (w : World) (evs : List Event) : World :=
  evs.foldl (step env) w

/-! ## Relay bindings -/

/-- A relay binding: the appsrc and appsink recorded on a pad. -/
structure RelayBinding where
  pad : Nat
  appsrc : Nat
  appsink : Nat
  deriving DecidableEq, Repr

/-- The binding an appsink entry of the pad data stands for, when the appsrc
is recorded on the same pad. -/
def binding_of (d : List QData) (e : QData) : Option RelayBinding :=
  if e.key = APPSINK_DATA then
    (g_object_get_data d e.obj APPSRC_DATA).map (fun appsrc => RelayBinding.mk e.obj appsrc e.data)
  else none

/-- All relay bindings recorded in the world. -/
def relay_bindings (w : World) : List RelayBinding :=
  w.qdata.filterMap (binding_of w.qdata)

/-- The bindings whose appsrc is linked to the audio agnosticbin. -/
def audio_bindings (w : World) : List RelayBinding :=
  (relay_bindings w).filter (fun b => decide ((b.appsrc, w.audio_agnosticbin) ∈ w.links))

/-- The bindings whose appsrc is linked to the video agnosticbin. -/
def video_bindings (w : World) : List RelayBinding :=
  (relay_bindings w).filter (fun b => decide ((b.appsrc, w.video_agnosticbin) ∈ w.links))

/-- A caps intersection for examples: the two serialised caps are equal. -/
def same_caps (a b : GstCaps) : Bool := a == b

/-- An environment for examples: the families are the raw formats, every link succeeds. -/
def env_ok : Env :=
  { KMS_AGNOSTIC_AUDIO_CAPS := "audio/x-raw"
    KMS_AGNOSTIC_VIDEO_CAPS := "video/x-raw"
    gst_caps_can_intersect := same_caps
    gst_element_link := fun _ _ => true
    gst_pad_link := fun _ _ => true }

/-- A fresh element for examples: agnosticbins 0 and 1, a URI set, stopped. -/
def world0 : World :=
  kms_player_end_point_init 0 1 (some "file:///a.webm")
    KmsUriEndPointState.KMS_URI_END_POINT_STATE_STOP GstState.GST_STATE_PLAYING

/-- An entry survives the removal of both keys of pad `p`. -/
def keeps (p : Nat) (e : QData) : Bool :=
  !e.is p APPSINK_DATA && !e.is p APPSRC_DATA

/-- An environment in which every caps intersection succeeds (a stream whose
caps fit both families) and every link succeeds. -/
def env_any : Env :=
  { KMS_AGNOSTIC_AUDIO_CAPS := "audio/x-raw"
    KMS_AGNOSTIC_VIDEO_CAPS := "video/x-raw"
    gst_caps_can_intersect := fun _ _ => true
    gst_element_link := fun _ _ => true
    gst_pad_link := fun _ _ => true }

/-- An environment in which no link succeeds. -/
def env_unlinked : Env :=
  { KMS_AGNOSTIC_AUDIO_CAPS := "audio/x-raw"
    KMS_AGNOSTIC_VIDEO_CAPS := "video/x-raw"
    gst_caps_can_intersect := same_caps
    gst_element_link := fun _ _ => false
    gst_pad_link := fun _ _ => false }

/-- A fresh element for which no URI was set. -/
def world_no_uri : World :=
  kms_player_end_point_init 0 1 none
    KmsUriEndPointState.KMS_URI_END_POINT_STATE_STOP GstState.GST_STATE_PLAYING

/-- The bus sync handler over the messages of one session, oldest first. -/
def bus_session (w : World) (msgs : List Nat) : World :=
  msgs.foldl (fun w msg_type => (bus_sync_signal_handler w msg_type).2) w

/-- The run state requested for the internal pipeline and the reported
lifecycle state are one of the three matching pairs. -/
def states_agree (w : World) : Prop :=
  (w.pipeline_state = GstState.GST_STATE_PLAYING
      ∧ w.state = KmsUriEndPointState.KMS_URI_END_POINT_STATE_START)
    ∨ (w.pipeline_state = GstState.GST_STATE_PAUSED
      ∧ w.state = KmsUriEndPointState.KMS_URI_END_POINT_STATE_PAUSE)
    ∨ (w.pipeline_state = GstState.GST_STATE_NULL
      ∧ w.state = KmsUriEndPointState.KMS_URI_END_POINT_STATE_STOP)

/-- The handles of the streams that were discovered with caps of one of the
two families and have not ended, newest first, read off the event sequence. -/
def open_classified (env : Env) : List Nat → List Event → List Nat
  | acc, [] => acc
  | acc, Event.StreamDiscovered handle caps :: rest =>
    if env.gst_caps_can_intersect env.KMS_AGNOSTIC_AUDIO_CAPS caps
        || env.gst_caps_can_intersect env.KMS_AGNOSTIC_VIDEO_CAPS caps then
      open_classified env (handle :: acc.filter (fun h => h != handle)) rest
    else open_classified env acc rest
  | acc, Event.StreamEnded handle :: rest =>
    open_classified env (acc.filter (fun h => h != handle)) rest
  | _, Event.stop :: rest => open_classified env [] rest
  | acc, _ :: rest => open_classified env acc rest

instance (w : World) : Decidable (states_agree w) := by
  unfold states_agree
  infer_instance

/-- The part of the world the stream callbacks leave alone. -/
def World.control (w : World) :
    GstState × KmsUriEndPointState × Option String × Option String × Nat × List GstPad
      × Nat × Nat :=
  (w.pipeline_state, w.state, w.uri, w.uridecodebin_uri, w.eos_signals, w.decoder_pads,
    w.audio_agnosticbin, w.video_agnosticbin)

/-- Every relay binding sits on a source pad the decoder still exposes. -/
def bindings_on_decoder_pads (w : World) : Prop :=
  (∀ b ∈ relay_bindings w, ∃ pad ∈ w.decoder_pads, pad.id = b.pad)
    ∧ ∀ pad ∈ w.decoder_pads, GST_PAD_IS_SINK pad = false

instance (w : World) : Decidable (bindings_on_decoder_pads w) := by
  unfold bindings_on_decoder_pads
  infer_instance

/-! ## Lemmas on keyed pad data -/

theorem get_data_filter_keeps (d : List QData) (p q : Nat) (key : String) (h : q ≠ p) :
    g_object_get_data (d.filter (keeps p)) q key = g_object_get_data d q key := by
  unfold g_object_get_data
  rw [List.find?_filter]
  congr 2
  funext e
  simp only [keeps, QData.is]
  by_cases ho : e.obj = q
  · have : e.obj ≠ p := by rw [ho]; exact h
    have hq : (q == p) = false := by simpa using h
    simp only [ho, hq, Bool.false_and, Bool.not_false, Bool.and_self, Bool.true_and,
      beq_self_eq_true]
    cases (e.key == key) <;> simp
  · simp [ho]

theorem binding_of_pad (d : List QData) (e : QData) (b : RelayBinding)
    (h : binding_of d e = some b) : b.pad = e.obj ∧ e.key = APPSINK_DATA := by
  unfold binding_of at h
  split at h
  · rename_i hk
    cases hg : g_object_get_data d e.obj APPSRC_DATA with
    | none => simp [hg] at h
    | some a =>
      simp [hg] at h
      exact ⟨by rw [← h], hk⟩
  · simp at h

theorem filterMap_binding_keeps (d d1 : List QData) (p : Nat)
    (h1 : ∀ q, q ≠ p → g_object_get_data d1 q APPSRC_DATA = g_object_get_data d q APPSRC_DATA)
    (l : List QData) :
    (l.filter (keeps p)).filterMap (binding_of d1)
      = (l.filterMap (binding_of d)).filter (fun b => b.pad != p) := by
  induction l with
  | nil => rfl
  | cons e l ih =>
    by_cases hp : e.obj = p
    · by_cases hk : e.key = APPSINK_DATA
      · have hkeep : keeps p e = false := by simp [keeps, QData.is, hp, hk]
        rw [List.filter_cons_of_neg (by simp [hkeep]), ih, List.filterMap_cons]
        cases hb : binding_of d e with
        | none => rfl
        | some b =>
          have := (binding_of_pad d e b hb).1
          simp [this, hp]
      · have hn1 : binding_of d1 e = none := by simp [binding_of, hk]
        have hn : binding_of d e = none := by simp [binding_of, hk]
        by_cases hkeep : keeps p e = true
        · rw [List.filter_cons_of_pos hkeep, List.filterMap_cons, hn1,
            List.filterMap_cons, hn]
          exact ih
        · rw [List.filter_cons_of_neg hkeep, List.filterMap_cons, hn]
          exact ih
    · have hkeep : keeps p e = true := by simp [keeps, QData.is, hp]
      have hsame : binding_of d1 e = binding_of d e := by
        unfold binding_of
        rw [h1 e.obj hp]
      rw [List.filter_cons_of_pos hkeep, List.filterMap_cons, List.filterMap_cons, hsame]
      cases hb : binding_of d e with
      | none => exact ih
      | some b =>
        have hb1 := (binding_of_pad d e b hb).1
        have : (b.pad != p) = true := by simp [hb1, hp]
        show b :: _ = List.filter _ (b :: _)
        simp only [List.filter_cons, this, ih, if_true]

theorem set_both_keys (d : List QData) (p a s : Nat) :
    g_object_set_data (g_object_set_data d p APPSRC_DATA a) p APPSINK_DATA s
      = QData.mk p APPSINK_DATA s :: QData.mk p APPSRC_DATA a :: d.filter (keeps p) := by
  have hne : (APPSRC_DATA == APPSINK_DATA) = false := by decide
  simp only [g_object_set_data, List.filter_cons, QData.is, hne, beq_self_eq_true,
    Bool.and_false, Bool.not_false, if_true, List.filter_filter]
  rfl

theorem steal_both_keys (d : List QData) (p : Nat) :
    (g_object_steal_data (g_object_steal_data d p APPSINK_DATA).2 p APPSRC_DATA).2
      = d.filter (keeps p) := by
  simp only [g_object_steal_data, List.filter_filter]
  congr 1
  funext e
  simp only [keeps, Bool.and_comm]

theorem bindings_set_both_keys (d : List QData) (p a s : Nat) :
    (g_object_set_data (g_object_set_data d p APPSRC_DATA a) p APPSINK_DATA s).filterMap
        (binding_of (g_object_set_data (g_object_set_data d p APPSRC_DATA a) p APPSINK_DATA s))
      = RelayBinding.mk p a s :: (d.filterMap (binding_of d)).filter (fun b => b.pad != p) := by
  rw [set_both_keys]
  have hne : (APPSINK_DATA == APPSRC_DATA) = false := by decide
  have hne2 : ¬ (APPSRC_DATA = APPSINK_DATA) := by decide
  have hget : ∀ q, q ≠ p →
      g_object_get_data (QData.mk p APPSINK_DATA s :: QData.mk p APPSRC_DATA a
        :: d.filter (keeps p)) q APPSRC_DATA = g_object_get_data d q APPSRC_DATA := by
    intro q hq
    rw [← get_data_filter_keeps d p q APPSRC_DATA hq]
    have hpq : (p == q) = false := by simpa using (Ne.symm hq)
    simp [g_object_get_data, List.find?_cons, QData.is, hpq]
  have hself : g_object_get_data (QData.mk p APPSINK_DATA s :: QData.mk p APPSRC_DATA a
        :: d.filter (keeps p)) p APPSRC_DATA = some a := by
    simp [g_object_get_data, List.find?_cons, QData.is, hne]
  rw [List.filterMap_cons, List.filterMap_cons]
  have h1 : binding_of (QData.mk p APPSINK_DATA s :: QData.mk p APPSRC_DATA a
        :: d.filter (keeps p)) (QData.mk p APPSINK_DATA s) = some (RelayBinding.mk p a s) := by
    simp [binding_of, hself]
  have h2 : binding_of (QData.mk p APPSINK_DATA s :: QData.mk p APPSRC_DATA a
        :: d.filter (keeps p)) (QData.mk p APPSRC_DATA a) = none := by
    simp [binding_of, hne2]
  rw [h1, h2]
  simp only
  rw [filterMap_binding_keeps d _ p hget d]

theorem bindings_steal_both_keys (d : List QData) (p : Nat) :
    (d.filter (keeps p)).filterMap (binding_of (d.filter (keeps p)))
      = (d.filterMap (binding_of d)).filter (fun b => b.pad != p) :=
  filterMap_binding_keeps d _ p (fun q hq => get_data_filter_keeps d p q APPSRC_DATA hq) d

/-! ## Field lemmas for the callbacks -/

theorem pad_added_bridge_qdata (env : Env) (w : World) (pad : GstPad) (ab : Nat) :
    (pad_added_bridge env w pad ab).qdata
      = g_object_set_data (g_object_set_data w.qdata pad.id APPSRC_DATA w.next_element)
          pad.id APPSINK_DATA (w.next_element + 1) := by
  simp only [pad_added_bridge, gst_element_factory_make, gst_element_set_state, GST_ERROR]
  split_ifs <;> rfl

theorem relay_bindings_pad_added_bridge (env : Env) (w : World) (pad : GstPad) (ab : Nat) :
    relay_bindings (pad_added_bridge env w pad ab)
      = RelayBinding.mk pad.id w.next_element (w.next_element + 1)
          :: (relay_bindings w).filter (fun b => b.pad != pad.id) := by
  unfold relay_bindings
  rw [pad_added_bridge_qdata, bindings_set_both_keys]

theorem pad_removed_appsrc_qdata (w : World) (appsrc : Option Nat) :
    (pad_removed_appsrc w appsrc).qdata = w.qdata := by
  unfold pad_removed_appsrc
  cases appsrc with
  | none => rfl
  | some a => simp only [gst_element_set_state]; split_ifs <;> rfl

theorem pad_removed_appsink_qdata (w : World) (pad : GstPad) (appsink : Option Nat) :
    (pad_removed_appsink w pad appsink).qdata = w.qdata := by
  unfold pad_removed_appsink
  cases appsink with
  | none => rfl
  | some a => simp only [gst_element_set_state, GST_ERROR]; split_ifs <;> rfl

theorem pad_removed_qdata (w : World) (pad : GstPad) (h : GST_PAD_IS_SINK pad = false) :
    (pad_removed w pad).qdata = w.qdata.filter (keeps pad.id) := by
  rw [← steal_both_keys]
  simp only [pad_removed, h, Bool.false_eq_true, if_false, pad_removed_appsink_qdata,
    pad_removed_appsrc_qdata]

theorem relay_bindings_pad_removed (w : World) (pad : GstPad)
    (h : GST_PAD_IS_SINK pad = false) :
    relay_bindings (pad_removed w pad)
      = (relay_bindings w).filter (fun b => b.pad != pad.id) := by
  unfold relay_bindings
  rw [pad_removed_qdata w pad h, bindings_steal_both_keys]

theorem pad_added_bridge_errors (env : Env) (w : World) (pad : GstPad) (ab : Nat) :
    (pad_added_bridge env w pad ab).errors = w.errors := by
  simp only [pad_added_bridge, gst_element_factory_make, gst_element_set_state, GST_ERROR]
  split_ifs <;> rfl

theorem pad_added_bridge_connections (env : Env) (w : World) (pad : GstPad) (ab : Nat) :
    (pad_added_bridge env w pad ab).connections
      = w.connections ++
        [SignalConnection.mk (w.next_element + 1) "new-sample" Callback.new_sample_cb
            w.next_element,
          SignalConnection.mk (w.next_element + 1) "eos" Callback.eos_cb w.next_element] := by
  simp only [pad_added_bridge, gst_element_factory_make, gst_element_set_state, GST_ERROR]
  split_ifs <;> simp

theorem pad_added_bridge_log (env : Env) (w : World) (pad : GstPad) (ab : Nat) :
    (pad_added_bridge env w pad ab).log
      = if env.gst_element_link w.next_element ab then w.log
        else w.log ++ [LogEntry.could_not_link w.next_element ab] := by
  simp only [pad_added_bridge, gst_element_factory_make, gst_element_set_state, GST_ERROR]
  split_ifs <;> rfl

theorem pad_added_bridge_links (env : Env) (w : World) (pad : GstPad) (ab : Nat) :
    (pad_added_bridge env w pad ab).links
      = if env.gst_element_link w.next_element ab then (w.next_element, ab) :: w.links
        else w.links := by
  simp only [pad_added_bridge, gst_element_factory_make, gst_element_set_state, GST_ERROR]
  split_ifs <;> rfl

theorem pad_added_bridge_children (env : Env) (w : World) (pad : GstPad) (ab : Nat) :
    (pad_added_bridge env w pad ab).self_children = w.next_element :: w.self_children
      ∧ (pad_added_bridge env w pad ab).pipeline_children
          = (w.next_element + 1) :: w.pipeline_children := by
  simp only [pad_added_bridge, gst_element_factory_make, gst_element_set_state, GST_ERROR]
  split_ifs <;> exact ⟨rfl, rfl⟩

theorem filter_filter_pad (l : List RelayBinding) (p : Nat) :
    (l.filter (fun b => b.pad != p)).filter (fun b => b.pad == p) = [] := by
  rw [List.filter_filter, List.filter_eq_nil_iff]
  intro b _
  cases h : (b.pad == p) <;> simp [bne, h]

theorem filter_filter_other (l : List RelayBinding) (p : Nat) :
    (l.filter (fun b => b.pad != p)).filter (fun b => b.pad != p)
      = l.filter (fun b => b.pad != p) := by
  rw [List.filter_filter]
  congr 1
  funext b
  simp

/-! ## Stream discovery -/

/-- C1: `pad_added` checks the audio family first and the video family second.
When the caps of the stream can intersect the audio family the audio agnosticbin
is the routing endpoint (also when the video family fits too); otherwise, when
they can intersect the video family, the video agnosticbin is.  In both cases
exactly one relay binding (the new appsrc and appsink) is recorded on the pad,
and the appsrc is the one handed to `gst_element_link` with the chosen endpoint. -/
theorem pad_added_selects_endpoint (env : Env) (w : World) (pad : GstPad)
    (h : env.gst_caps_can_intersect env.KMS_AGNOSTIC_AUDIO_CAPS (gst_pad_query_caps pad) = true
      ∨ env.gst_caps_can_intersect env.KMS_AGNOSTIC_VIDEO_CAPS (gst_pad_query_caps pad) = true) :
    (env.gst_caps_can_intersect env.KMS_AGNOSTIC_AUDIO_CAPS (gst_pad_query_caps pad) = true →
        pad_added env w pad = pad_added_bridge env w pad w.audio_agnosticbin
        ∧ (env.gst_element_link w.next_element w.audio_agnosticbin = true →
            (w.next_element, w.audio_agnosticbin) ∈ (pad_added env w pad).links))
    ∧ (env.gst_caps_can_intersect env.KMS_AGNOSTIC_AUDIO_CAPS (gst_pad_query_caps pad) = false →
        pad_added env w pad = pad_added_bridge env w pad w.video_agnosticbin
        ∧ (env.gst_element_link w.next_element w.video_agnosticbin = true →
            (w.next_element, w.video_agnosticbin) ∈ (pad_added env w pad).links))
    ∧ (relay_bindings (pad_added env w pad)).filter (fun b => b.pad == pad.id)
        = [RelayBinding.mk pad.id w.next_element (w.next_element + 1)] := by
  refine ⟨?_, ?_, ?_⟩
  · intro ha
    have hsel : pad_added env w pad = pad_added_bridge env w pad w.audio_agnosticbin := by
      simp only [pad_added, ha, if_true]
    refine ⟨hsel, fun hl => ?_⟩
    rw [hsel, pad_added_bridge_links, hl]
    simp
  · intro ha
    have hv : env.gst_caps_can_intersect env.KMS_AGNOSTIC_VIDEO_CAPS (gst_pad_query_caps pad)
        = true := by
      rcases h with h | h
      · rw [ha] at h; cases h
      · exact h
    have hsel : pad_added env w pad = pad_added_bridge env w pad w.video_agnosticbin := by
      simp only [pad_added, ha, hv, if_true, Bool.false_eq_true, if_false]
    refine ⟨hsel, fun hl => ?_⟩
    rw [hsel, pad_added_bridge_links, hl]
    simp
  · have hsel : ∃ ab, pad_added env w pad = pad_added_bridge env w pad ab := by
      cases ha : env.gst_caps_can_intersect env.KMS_AGNOSTIC_AUDIO_CAPS (gst_pad_query_caps pad)
      · have hv : env.gst_caps_can_intersect env.KMS_AGNOSTIC_VIDEO_CAPS
            (gst_pad_query_caps pad) = true := by
          rcases h with h | h
          · rw [ha] at h; cases h
          · exact h
        exact ⟨w.video_agnosticbin, by
          simp only [pad_added, ha, hv, if_true, Bool.false_eq_true, if_false]⟩
      · exact ⟨w.audio_agnosticbin, by simp only [pad_added, ha, if_true]⟩
    obtain ⟨ab, hab⟩ := hsel
    rw [hab, relay_bindings_pad_added_bridge, List.filter_cons]
    simp only [beq_self_eq_true, if_true, filter_filter_pad]

/-- Witness for C1: a stream whose caps fit both families goes to the audio agnosticbin
(element 0 of `world0`) and gets the binding of pad 7 to appsrc 3 and appsink 4. -/
theorem pad_added_selects_endpoint_witness :
    pad_added env_any world0 (decoder_pad 7 "application/x-any")
        = pad_added_bridge env_any world0 (decoder_pad 7 "application/x-any") 0
      ∧ (3, 0) ∈ (pad_added env_any world0 (decoder_pad 7 "application/x-any")).links
      ∧ relay_bindings (pad_added env_any world0 (decoder_pad 7 "application/x-any"))
          = [RelayBinding.mk 7 3 4] :=
  have h := pad_added_selects_endpoint env_any world0 (decoder_pad 7 "application/x-any")
    (Or.inl rfl)
  ⟨(h.1 rfl).1, (h.1 rfl).2 rfl, by decide⟩

/-- C6: when the caps of the stream can intersect neither family, `pad_added`
posts the caps error on the error channel of the element and does nothing else:
no appsrc is added to the element, no appsink to the internal pipeline, no
signal is connected, the pad data and so every relay binding stay as they were. -/
theorem pad_added_unclassifiable (env : Env) (w : World) (pad : GstPad)
    (ha : env.gst_caps_can_intersect env.KMS_AGNOSTIC_AUDIO_CAPS (gst_pad_query_caps pad) = false)
    (hv : env.gst_caps_can_intersect env.KMS_AGNOSTIC_VIDEO_CAPS (gst_pad_query_caps pad) = false) :
    (pad_added env w pad).errors
        = w.errors ++ [ElementError.CORE_CAPS "No agnostic caps provided"]
      ∧ (pad_added env w pad).self_children = w.self_children
      ∧ (pad_added env w pad).pipeline_children = w.pipeline_children
      ∧ (pad_added env w pad).next_element = w.next_element
      ∧ (pad_added env w pad).connections = w.connections
      ∧ (pad_added env w pad).qdata = w.qdata
      ∧ g_object_get_data (pad_added env w pad).qdata pad.id APPSRC_DATA
          = g_object_get_data w.qdata pad.id APPSRC_DATA
      ∧ g_object_get_data (pad_added env w pad).qdata pad.id APPSINK_DATA
          = g_object_get_data w.qdata pad.id APPSINK_DATA
      ∧ relay_bindings (pad_added env w pad) = relay_bindings w
      ∧ pad_added env w pad
          = { w with errors := w.errors ++ [ElementError.CORE_CAPS "No agnostic caps provided"] } := by
  have hsel : pad_added env w pad
      = { w with errors := w.errors ++ [ElementError.CORE_CAPS "No agnostic caps provided"] } := by
    simp only [pad_added, ha, hv, Bool.false_eq_true, if_false, GST_ELEMENT_ERROR]
  rw [hsel]
  exact ⟨rfl, rfl, rfl, rfl, rfl, rfl, rfl, rfl, rfl, rfl⟩

/-- Witness for C6: a subtitle stream on a fresh element leaves one posted error and no binding. -/
theorem pad_added_unclassifiable_witness :
    (pad_added env_ok world0 (decoder_pad 9 "text/x-raw")).errors
        = [ElementError.CORE_CAPS "No agnostic caps provided"]
      ∧ relay_bindings (pad_added env_ok world0 (decoder_pad 9 "text/x-raw")) = [] :=
  have h := pad_added_unclassifiable env_ok world0 (decoder_pad 9 "text/x-raw")
    (by decide) (by decide)
  ⟨h.1, h.2.2.2.2.2.2.2.2.1⟩

/-- C7, as the claim states it, fails: with an audio stream whose appsrc cannot be
linked to the agnosticbin and whose pad cannot be linked to the appsink, nothing
is posted on the error channel, the relay binding is recorded and both callbacks
are connected. -/
theorem pad_added_link_failure_counterexample :
    (pad_added env_unlinked world0 (decoder_pad 7 "audio/x-raw")).errors = []
      ∧ relay_bindings (pad_added env_unlinked world0 (decoder_pad 7 "audio/x-raw"))
          = [RelayBinding.mk 7 3 4]
      ∧ (pad_added env_unlinked world0 (decoder_pad 7 "audio/x-raw")).connections
          = [SignalConnection.mk 4 "new-sample" Callback.new_sample_cb 3,
              SignalConnection.mk 4 "eos" Callback.eos_cb 3] := by
  decide

/-- C7, amended: a failed link does not stop `pad_added`.  When the appsrc
cannot be linked to the chosen agnosticbin the failure is written to the debug
log only; a failed link between the pad and the appsink is not looked at.  In
both cases nothing is posted on the error channel, the relay binding is
recorded on the pad, both callbacks are connected, and the bindings of the
other pads are unchanged. -/
theorem pad_added_link_failure (env : Env) (w : World) (pad : GstPad) (agnosticbin : Nat)
    (hsel : (env.gst_caps_can_intersect env.KMS_AGNOSTIC_AUDIO_CAPS (gst_pad_query_caps pad) = true
        ∧ agnosticbin = w.audio_agnosticbin)
      ∨ (env.gst_caps_can_intersect env.KMS_AGNOSTIC_AUDIO_CAPS (gst_pad_query_caps pad) = false
        ∧ env.gst_caps_can_intersect env.KMS_AGNOSTIC_VIDEO_CAPS (gst_pad_query_caps pad) = true
        ∧ agnosticbin = w.video_agnosticbin))
    (hfail : env.gst_element_link w.next_element agnosticbin = false
      ∨ env.gst_pad_link pad.id (w.next_element + 1) = false) :
    (pad_added env w pad).errors = w.errors
      ∧ (pad_added env w pad).log
          = (if env.gst_element_link w.next_element agnosticbin then w.log
              else w.log ++ [LogEntry.could_not_link w.next_element agnosticbin])
      ∧ (relay_bindings (pad_added env w pad)).filter (fun b => b.pad == pad.id)
          = [RelayBinding.mk pad.id w.next_element (w.next_element + 1)]
      ∧ (pad_added env w pad).connections
          = w.connections ++
            [SignalConnection.mk (w.next_element + 1) "new-sample" Callback.new_sample_cb
                w.next_element,
              SignalConnection.mk (w.next_element + 1) "eos" Callback.eos_cb w.next_element]
      ∧ (relay_bindings (pad_added env w pad)).filter (fun b => b.pad != pad.id)
          = (relay_bindings w).filter (fun b => b.pad != pad.id) := by
  have _ := hfail
  have hpa : pad_added env w pad = pad_added_bridge env w pad agnosticbin := by
    rcases hsel with ⟨ha, hab⟩ | ⟨ha, hv, hab⟩
    · simp only [pad_added, ha, if_true, hab]
    · simp only [pad_added, ha, hv, if_true, Bool.false_eq_true, if_false, hab]
  rw [hpa, relay_bindings_pad_added_bridge]
  refine ⟨pad_added_bridge_errors env w pad agnosticbin,
    pad_added_bridge_log env w pad agnosticbin, ?_,
    pad_added_bridge_connections env w pad agnosticbin, ?_⟩
  · rw [List.filter_cons]
    simp only [beq_self_eq_true, if_true, filter_filter_pad]
  · rw [List.filter_cons]
    simp only [bne_self_eq_false, Bool.false_eq_true, if_false, filter_filter_other]

/-- Witness for C7 amended: an audio stream on a fresh element when no link succeeds. -/
theorem pad_added_link_failure_witness :
    (pad_added env_unlinked world0 (decoder_pad 7 "audio/x-raw")).errors = []
      ∧ (pad_added env_unlinked world0 (decoder_pad 7 "audio/x-raw")).log
          = [LogEntry.could_not_link 3 0] :=
  have h := pad_added_link_failure env_unlinked world0 (decoder_pad 7 "audio/x-raw") 0
    (Or.inl ⟨by decide, rfl⟩) (Or.inl rfl)
  ⟨h.1, h.2.1⟩

/-! ## Stream end -/

theorem get_data_eq_none (d : List QData) (p : Nat) (key : String)
    (h : g_object_get_data d p key = none) : ∀ e ∈ d, e.is p key = false := by
  intro e he
  unfold g_object_get_data at h
  rw [Option.map_eq_none', List.find?_eq_none] at h
  simpa using h e he

theorem filter_absent (d : List QData) (p : Nat) (key : String)
    (h : g_object_get_data d p key = none) :
    d.filter (fun e => !e.is p key) = d := by
  rw [List.filter_eq_self]
  intro e he
  simp [get_data_eq_none d p key h e he]

/-- C8: a `pad-removed` for a source pad that carries neither an appsrc nor an
appsink writes the one "no appsink found" line and changes nothing else (no
element leaves the element or the internal pipeline, no posted error, the pad
data and so every binding of another pad is as before); a `pad-removed` for a
sink pad changes nothing at all.  The callback is a total function: there is
no input on which it fails. -/
theorem pad_removed_without_binding (w : World) (pad : GstPad) :
    (GST_PAD_IS_SINK pad = true → pad_removed w pad = w)
      ∧ (GST_PAD_IS_SINK pad = false →
          g_object_get_data w.qdata pad.id APPSRC_DATA = none →
          g_object_get_data w.qdata pad.id APPSINK_DATA = none →
          pad_removed w pad = { w with log := w.log ++ [LogEntry.no_appsink_found pad.id] }
            ∧ (pad_removed w pad).self_children = w.self_children
            ∧ (pad_removed w pad).pipeline_children = w.pipeline_children
            ∧ (pad_removed w pad).errors = w.errors
            ∧ relay_bindings (pad_removed w pad) = relay_bindings w) := by
  refine ⟨fun hs => ?_, fun hs hsrc hsink => ?_⟩
  · simp only [pad_removed, hs, if_true]
  · have h : pad_removed w pad
        = { w with log := w.log ++ [LogEntry.no_appsink_found pad.id] } := by
      simp only [pad_removed, hs, Bool.false_eq_true, if_false, g_object_steal_data, hsink,
        filter_absent w.qdata pad.id APPSINK_DATA hsink, hsrc,
        filter_absent w.qdata pad.id APPSRC_DATA hsrc, pad_removed_appsrc,
        pad_removed_appsink, GST_ERROR]
    rw [h]
    exact ⟨rfl, rfl, rfl, rfl, rfl⟩

/-- Witness for C8: on a fresh element a source pad without data gives the one
log line, and a sink pad gives no change. -/
theorem pad_removed_without_binding_witness :
    pad_removed world0 (GstPad.mk 5 GstPadDirection.GST_PAD_SINK "audio/x-raw") = world0
      ∧ pad_removed world0 (decoder_pad 5 "audio/x-raw")
          = { world0 with log := [LogEntry.no_appsink_found 5] } :=
  ⟨(pad_removed_without_binding world0
      (GstPad.mk 5 GstPadDirection.GST_PAD_SINK "audio/x-raw")).1 rfl,
    ((pad_removed_without_binding world0 (decoder_pad 5 "audio/x-raw")).2 rfl rfl rfl).1⟩

/-! ## The buffer relay -/

theorem relay_stream_pushed (items : List (Option GstSample × GstFlowReturn)) :
    ∀ appsrc : AppSrc, (relay_stream appsrc items).pushed
      = appsrc.pushed
        ++ (items.filterMap (fun it => it.1.bind (fun s => s.buffer))).map reset_timing := by
  induction items with
  | nil => intro appsrc; simp [relay_stream]
  | cons it rest ih =>
    intro appsrc
    obtain ⟨pulled, ret⟩ := it
    rw [relay_stream, ih]
    cases pulled with
    | none => simp [new_sample_cb]
    | some sample =>
      cases hb : sample.buffer with
      | none => simp [new_sample_cb, hb]
      | some b =>
        simp only [new_sample_cb, hb]
        split_ifs <;> simp [hb]

/-- C2: whatever timing metadata a buffer carries, the buffer `new_sample_cb`
pushes has pts, dts, offset and offset-end at the NONE value and the payload it
came with; resetting a reset buffer changes nothing; a sample with a buffer
gives exactly one push whatever the appsrc answers, a missing sample or a
sample without buffer gives none and returns OK; and over a stream the pushes
are the reset buffers of the non-empty samples in the order they were pulled. -/
theorem new_sample_cb_resets_timing :
    (∀ b : GstBuffer, (reset_timing b).pts = GST_CLOCK_TIME_NONE
        ∧ (reset_timing b).dts = GST_CLOCK_TIME_NONE
        ∧ (reset_timing b).offset = GST_CLOCK_TIME_NONE
        ∧ (reset_timing b).offset_end = GST_CLOCK_TIME_NONE
        ∧ (reset_timing b).payload = b.payload)
      ∧ (∀ b : GstBuffer, reset_timing (reset_timing b) = reset_timing b)
      ∧ (∀ (appsrc : AppSrc) (b : GstBuffer) (ret : GstFlowReturn),
          (new_sample_cb appsrc (some (GstSample.mk (some b))) ret).2.pushed
              = appsrc.pushed ++ [reset_timing b]
            ∧ (new_sample_cb appsrc (some (GstSample.mk (some b))) ret).1 = ret)
      ∧ (∀ (appsrc : AppSrc) (ret : GstFlowReturn),
          new_sample_cb appsrc none ret = (GstFlowReturn.GST_FLOW_OK, appsrc)
            ∧ new_sample_cb appsrc (some (GstSample.mk none)) ret
                = (GstFlowReturn.GST_FLOW_OK, appsrc))
      ∧ (∀ (appsrc : AppSrc) (items : List (Option GstSample × GstFlowReturn)),
          (relay_stream appsrc items).pushed
            = appsrc.pushed
              ++ (items.filterMap (fun it => it.1.bind (fun s => s.buffer))).map reset_timing) := by
  refine ⟨fun b => ⟨rfl, rfl, rfl, rfl, rfl⟩, fun b => rfl, ?_, fun appsrc ret => ⟨rfl, rfl⟩,
    fun appsrc items => relay_stream_pushed items appsrc⟩
  intro appsrc b ret
  unfold new_sample_cb
  by_cases hr : ret = GstFlowReturn.GST_FLOW_OK
  · subst hr
    exact ⟨rfl, rfl⟩
  · refine ⟨?_, rfl⟩
    show (if ret ≠ GstFlowReturn.GST_FLOW_OK then _ else _ : AppSrc).pushed = _
    rw [if_pos hr]

/-! ## Frame lemmas -/

theorem pad_added_bridge_control (env : Env) (w : World) (pad : GstPad) (ab : Nat) :
    (pad_added_bridge env w pad ab).control = w.control := by
  simp only [pad_added_bridge, gst_element_factory_make, gst_element_set_state, GST_ERROR,
    World.control]
  split_ifs <;> rfl

theorem pad_added_control (env : Env) (w : World) (pad : GstPad) :
    (pad_added env w pad).control = w.control := by
  unfold pad_added
  simp only
  split_ifs
  · exact pad_added_bridge_control env w pad _
  · exact pad_added_bridge_control env w pad _
  · rfl

theorem pad_removed_appsrc_control (w : World) (appsrc : Option Nat) :
    (pad_removed_appsrc w appsrc).control = w.control := by
  unfold pad_removed_appsrc
  cases appsrc with
  | none => rfl
  | some a => simp only [gst_element_set_state]; split_ifs <;> rfl

theorem pad_removed_appsink_control (w : World) (pad : GstPad) (appsink : Option Nat) :
    (pad_removed_appsink w pad appsink).control = w.control := by
  unfold pad_removed_appsink
  cases appsink with
  | none => rfl
  | some a => simp only [gst_element_set_state, GST_ERROR]; split_ifs <;> rfl

theorem pad_removed_control (w : World) (pad : GstPad) :
    (pad_removed w pad).control = w.control := by
  unfold pad_removed
  split_ifs
  · rfl
  · simp only [pad_removed_appsink_control, pad_removed_appsrc_control]
    rfl

theorem foldl_pad_removed_control (pads : List GstPad) :
    ∀ w : World, (pads.foldl pad_removed w).control = w.control := by
  induction pads with
  | nil => intro w; rfl
  | cons pad rest ih =>
    intro w
    rw [List.foldl_cons, ih, pad_removed_control]

theorem control_states {w1 w2 : World} (h : w1.control = w2.control) :
    w1.pipeline_state = w2.pipeline_state ∧ w1.state = w2.state ∧ w1.uri = w2.uri
      ∧ w1.uridecodebin_uri = w2.uridecodebin_uri ∧ w1.eos_signals = w2.eos_signals
      ∧ w1.decoder_pads = w2.decoder_pads := by
  simp only [World.control, Prod.mk.injEq] at h
  exact ⟨h.1, h.2.1, h.2.2.1, h.2.2.2.1, h.2.2.2.2.1, h.2.2.2.2.2.1⟩

theorem set_state_pipeline_states (w : World) (s : GstState) :
    (gst_element_set_state_pipeline w s).pipeline_state = s
      ∧ (gst_element_set_state_pipeline w s).state = w.state
      ∧ (gst_element_set_state_pipeline w s).uri = w.uri
      ∧ (gst_element_set_state_pipeline w s).uridecodebin_uri = w.uridecodebin_uri
      ∧ (gst_element_set_state_pipeline w s).eos_signals = w.eos_signals := by
  unfold gst_element_set_state_pipeline
  simp only
  split_ifs
  · have h := control_states (foldl_pad_removed_control w.decoder_pads
      { w with pipeline_state := s, decoder_pads := [] })
    exact ⟨h.1, h.2.1, h.2.2.1, h.2.2.2.1, h.2.2.2.2.1⟩
  · exact ⟨rfl, rfl, rfl, rfl, rfl⟩

theorem started_states (w : World) :
    (kms_player_end_point_started w).uridecodebin_uri = w.uri
      ∧ (kms_player_end_point_started w).pipeline_state = GstState.GST_STATE_PLAYING
      ∧ (kms_player_end_point_started w).state
          = KmsUriEndPointState.KMS_URI_END_POINT_STATE_START := by
  have h := set_state_pipeline_states { w with uridecodebin_uri := w.uri }
    GstState.GST_STATE_PLAYING
  exact ⟨h.2.2.2.1, h.1, rfl⟩

theorem paused_states (w : World) :
    (kms_player_end_point_paused w).pipeline_state = GstState.GST_STATE_PAUSED
      ∧ (kms_player_end_point_paused w).state
          = KmsUriEndPointState.KMS_URI_END_POINT_STATE_PAUSE := by
  have h := set_state_pipeline_states w GstState.GST_STATE_PAUSED
  exact ⟨h.1, rfl⟩

theorem stopped_states (w : World) :
    (kms_player_end_point_stopped w).pipeline_state = GstState.GST_STATE_NULL
      ∧ (kms_player_end_point_stopped w).state
          = KmsUriEndPointState.KMS_URI_END_POINT_STATE_STOP := by
  have h := set_state_pipeline_states w GstState.GST_STATE_NULL
  exact ⟨h.1, rfl⟩

theorem step_agree_of_playback (env : Env) (w : World) (e : Event)
    (h : e.isPlayback = true) : states_agree (step env w e) := by
  cases e with
  | start => exact Or.inl (started_states w).2
  | pause => exact Or.inr (Or.inl (paused_states w))
  | stop => exact Or.inr (Or.inr (stopped_states w))
  | StreamDiscovered handle caps => cases h
  | StreamEnded handle => cases h
  | bus m => cases h

theorem states_agree_congr {w1 w2 : World} (hp : w1.pipeline_state = w2.pipeline_state)
    (hs : w1.state = w2.state) (h : states_agree w2) : states_agree w1 := by
  unfold states_agree at *
  rw [hp, hs]
  exact h

theorem step_agree (env : Env) (w : World) (e : Event) (h : states_agree w) :
    states_agree (step env w e) := by
  cases e with
  | start => exact step_agree_of_playback env w Event.start rfl
  | pause => exact step_agree_of_playback env w Event.pause rfl
  | stop => exact step_agree_of_playback env w Event.stop rfl
  | StreamDiscovered handle caps =>
    have hc := control_states (pad_added_control env
      { w with decoder_pads :=
        decoder_pad handle caps :: w.decoder_pads.filter (fun p => p.id != handle) }
      (decoder_pad handle caps))
    exact states_agree_congr hc.1 hc.2.1 h
  | StreamEnded handle =>
    simp only [step]
    split
    · exact h
    · rename_i pad _
      have hc := control_states (pad_removed_control
        { w with decoder_pads := w.decoder_pads.filter (fun p => p.id != handle) } pad)
      exact states_agree_congr hc.1 hc.2.1 h
  | bus m =>
    simp only [step, bus_sync_signal_handler]
    split_ifs
    · exact h
    · exact h

theorem run_agree (env : Env) (evs : List Event) :
    ∀ w : World, states_agree w → states_agree (run env w evs) := by
  induction evs with
  | nil => intro w h; exact h
  | cons e rest ih =>
    intro w h
    exact ih (step env w e) (step_agree env w e h)

theorem run_agree_of_playback (env : Env) (evs : List Event) :
    ∀ w : World, (∃ e ∈ evs, e.isPlayback = true) → states_agree (run env w evs) := by
  induction evs with
  | nil => intro w h; obtain ⟨e, he, _⟩ := h; cases he
  | cons e rest ih =>
    intro w h
    by_cases hp : e.isPlayback = true
    · exact run_agree env rest (step env w e) (step_agree_of_playback env w e hp)
    · apply ih (step env w e)
      obtain ⟨e1, he1, hp1⟩ := h
      rcases List.mem_cons.mp he1 with heq | hmem
      · rw [heq] at hp1; exact absurd hp1 hp
      · exact ⟨e1, hmem, hp1⟩

/-! ## The playback state machine -/

/-- C5: `started` hands the URI of the end point to the uridecodebin, asks the
internal pipeline for PLAYING and reports START; `paused` asks for PAUSED and
reports PAUSE; `stopped` asks for NULL and reports STOP.  So after any sequence
of events that holds at least one of the three calls, whatever the world it
started from, the requested run state and the reported state are one of the
pairs (PLAYING, START), (PAUSED, PAUSE), (NULL, STOP). -/
theorem playback_states_agree (env : Env) (w : World) (evs : List Event)
    (h : ∃ e ∈ evs, e.isPlayback = true) :
    ((kms_player_end_point_started w).uridecodebin_uri = w.uri
        ∧ (kms_player_end_point_started w).pipeline_state = GstState.GST_STATE_PLAYING
        ∧ (kms_player_end_point_started w).state
            = KmsUriEndPointState.KMS_URI_END_POINT_STATE_START)
      ∧ ((kms_player_end_point_paused w).pipeline_state = GstState.GST_STATE_PAUSED
        ∧ (kms_player_end_point_paused w).state
            = KmsUriEndPointState.KMS_URI_END_POINT_STATE_PAUSE)
      ∧ ((kms_player_end_point_stopped w).pipeline_state = GstState.GST_STATE_NULL
        ∧ (kms_player_end_point_stopped w).state
            = KmsUriEndPointState.KMS_URI_END_POINT_STATE_STOP)
      ∧ states_agree (run env w evs) :=
  ⟨started_states w, paused_states w, stopped_states w, run_agree_of_playback env evs w h⟩

/-- Witness for C5: start, a discovered audio stream, pause, start again, on a fresh element. -/
theorem playback_states_agree_witness :
    (run env_ok world0 [Event.start, Event.StreamDiscovered 7 "audio/x-raw", Event.pause,
        Event.start]).pipeline_state = GstState.GST_STATE_PLAYING
      ∧ states_agree (run env_ok world0 [Event.start, Event.StreamDiscovered 7 "audio/x-raw",
          Event.pause, Event.start]) :=
  ⟨by decide, (playback_states_agree env_ok world0 [Event.start,
    Event.StreamDiscovered 7 "audio/x-raw", Event.pause, Event.start]
    ⟨Event.start, by decide, rfl⟩).2.2.2⟩

/-- C10, as the claim states it, fails: on an element for which no URI was set
`started` asks the internal pipeline for PLAYING and reports START. -/
theorem started_without_uri_counterexample :
    world_no_uri.uri = none
      ∧ (kms_player_end_point_started world_no_uri).pipeline_state = GstState.GST_STATE_PLAYING
      ∧ (kms_player_end_point_started world_no_uri).state
          = KmsUriEndPointState.KMS_URI_END_POINT_STATE_START := by
  decide

/-- C10, amended: `started` does not look at whether a URI was set.  With no URI
it hands the absent URI to the uridecodebin, asks the internal pipeline for
PLAYING and reports START, as it does when a URI is set. -/
theorem started_without_uri (w : World) (h : w.uri = none) :
    (kms_player_end_point_started w).uridecodebin_uri = none
      ∧ (kms_player_end_point_started w).pipeline_state = GstState.GST_STATE_PLAYING
      ∧ (kms_player_end_point_started w).state
          = KmsUriEndPointState.KMS_URI_END_POINT_STATE_START := by
  have hs := started_states w
  rw [h] at hs
  exact hs

/-- Witness for C10 amended: the fresh element without URI. -/
theorem started_without_uri_witness :
    (kms_player_end_point_started world_no_uri).uridecodebin_uri = none
      ∧ (kms_player_end_point_started world_no_uri).pipeline_state = GstState.GST_STATE_PLAYING
      ∧ (kms_player_end_point_started world_no_uri).state
          = KmsUriEndPointState.KMS_URI_END_POINT_STATE_START :=
  started_without_uri world_no_uri rfl

/-! ## The bus -/

theorem bus_session_eos (msgs : List Nat) :
    ∀ w : World, (bus_session w msgs).eos_signals
      = w.eos_signals + msgs.count GST_MESSAGE_EOS := by
  induction msgs with
  | nil => intro w; simp [bus_session]
  | cons m rest ih =>
    intro w
    have hstep : bus_session w (m :: rest)
        = bus_session (bus_sync_signal_handler w m).2 rest := rfl
    rw [hstep, ih]
    by_cases hm : m = GST_MESSAGE_EOS
    · subst hm
      simp [bus_sync_signal_handler]
      omega
    · have hne : ¬ (GST_MESSAGE_EOS = m) := fun h => hm h.symm
      simp [bus_sync_signal_handler, hm, List.count_cons, hne]

/-- C9, as the claim states it, fails: two end-of-stream messages in one session
give two emissions of the `eos` signal. -/
theorem bus_eos_twice_counterexample :
    (bus_session world0 [GST_MESSAGE_EOS, GST_MESSAGE_EOS]).eos_signals = 2 := by
  decide

/-- C9, amended: the handler emits the `eos` signal once for every
end-of-stream message it sees, with no memory of earlier emissions: over the
messages of a session the number of emissions grows by the number of
end-of-stream messages, so by one when there is exactly one and not at all
when there is none.  A message of another type changes nothing, and the reply
is always GST_BUS_PASS. -/
theorem bus_eos_once_per_message (w : World) (msgs : List Nat) (m : Nat) :
    (bus_session w msgs).eos_signals = w.eos_signals + msgs.count GST_MESSAGE_EOS
      ∧ (bus_sync_signal_handler w m).1 = GstBusSyncReply.GST_BUS_PASS
      ∧ (bus_sync_signal_handler w GST_MESSAGE_EOS).2
          = { w with eos_signals := w.eos_signals + 1 }
      ∧ (m ≠ GST_MESSAGE_EOS → (bus_sync_signal_handler w m).2 = w) := by
  refine ⟨bus_session_eos msgs w, rfl, ?_, fun hm => ?_⟩
  · simp [bus_sync_signal_handler]
  · simp [bus_sync_signal_handler, hm]

/-- Witness for C9 amended: a state-changed message (type 64) leaves a fresh element as it was. -/
theorem bus_eos_once_per_message_witness :
    (bus_sync_signal_handler world0 64).2 = world0 :=
  (bus_eos_once_per_message world0 [] 64).2.2.2 (by decide)

/-! ## Bindings along event sequences -/

theorem relay_bindings_congr {w1 w2 : World} (h : w1.qdata = w2.qdata) :
    relay_bindings w1 = relay_bindings w2 := by
  unfold relay_bindings
  rw [h]

theorem map_pad_filter (l : List RelayBinding) (p : Nat) :
    (l.filter (fun b => b.pad != p)).map (fun b => b.pad)
      = (l.map (fun b => b.pad)).filter (fun h => h != p) := by
  rw [List.filter_map]
  rfl

theorem foldl_pad_removed_bindings (pads : List GstPad) :
    ∀ w : World, (∀ p ∈ pads, GST_PAD_IS_SINK p = false) →
      relay_bindings (pads.foldl pad_removed w)
        = (relay_bindings w).filter (fun b => pads.all (fun p => b.pad != p.id)) := by
  induction pads with
  | nil => intro w _; simp
  | cons pad rest ih =>
    intro w hp
    rw [List.foldl_cons, ih (pad_removed w pad) (fun p hmem => hp p (List.mem_cons_of_mem _ hmem)),
      relay_bindings_pad_removed w pad (hp pad (List.mem_cons_self _ _)), List.filter_filter]
    congr 1
    funext b
    simp only [List.all_cons, Bool.and_comm]

theorem set_state_pipeline_null (w : World) (h : bindings_on_decoder_pads w) :
    relay_bindings (gst_element_set_state_pipeline w GstState.GST_STATE_NULL) = []
      ∧ (gst_element_set_state_pipeline w GstState.GST_STATE_NULL).decoder_pads = [] := by
  unfold gst_element_set_state_pipeline
  simp only [if_true]
  constructor
  · rw [foldl_pad_removed_bindings w.decoder_pads _ h.2, List.filter_eq_nil_iff]
    intro b hb
    have hb1 : b ∈ relay_bindings w := hb
    obtain ⟨pad, hpad, hid⟩ := h.1 b hb1
    simp only [List.all_eq_true, not_forall]
    refine ⟨pad, hpad, ?_⟩
    simp [hid]
  · exact (control_states (foldl_pad_removed_control w.decoder_pads
      { w with pipeline_state := GstState.GST_STATE_NULL, decoder_pads := [] })).2.2.2.2.2

theorem stopped_bindings (w : World) (h : bindings_on_decoder_pads w) :
    relay_bindings (kms_player_end_point_stopped w) = []
      ∧ (kms_player_end_point_stopped w).decoder_pads = [] := by
  have hn := set_state_pipeline_null w h
  exact ⟨hn.1, hn.2⟩

theorem set_state_pipeline_other (w : World) (s : GstState) (hs : s ≠ GstState.GST_STATE_NULL) :
    gst_element_set_state_pipeline w s = { w with pipeline_state := s } := by
  unfold gst_element_set_state_pipeline
  simp only [hs, if_false]

theorem classified_bridge (env : Env) (w : World) (pad : GstPad)
    (h : (env.gst_caps_can_intersect env.KMS_AGNOSTIC_AUDIO_CAPS pad.caps
      || env.gst_caps_can_intersect env.KMS_AGNOSTIC_VIDEO_CAPS pad.caps) = true) :
    ∃ ab, pad_added env w pad = pad_added_bridge env w pad ab := by
  cases ha : env.gst_caps_can_intersect env.KMS_AGNOSTIC_AUDIO_CAPS pad.caps
  · rw [ha, Bool.false_or] at h
    exact ⟨w.video_agnosticbin, by
      simp only [pad_added, gst_pad_query_caps, ha, h, if_true, Bool.false_eq_true, if_false]⟩
  · exact ⟨w.audio_agnosticbin, by simp only [pad_added, gst_pad_query_caps, ha, if_true]⟩

theorem unclassified_error (env : Env) (w : World) (pad : GstPad)
    (h : (env.gst_caps_can_intersect env.KMS_AGNOSTIC_AUDIO_CAPS pad.caps
      || env.gst_caps_can_intersect env.KMS_AGNOSTIC_VIDEO_CAPS pad.caps) = false) :
    pad_added env w pad
      = GST_ELEMENT_ERROR w (ElementError.CORE_CAPS "No agnostic caps provided") := by
  rw [Bool.or_eq_false_iff] at h
  simp only [pad_added, gst_pad_query_caps, h.1, h.2, Bool.false_eq_true, if_false]

theorem bindings_discovered (env : Env) (w : World) (handle : Nat) (caps : GstCaps) :
    relay_bindings (step env w (Event.StreamDiscovered handle caps))
      = if env.gst_caps_can_intersect env.KMS_AGNOSTIC_AUDIO_CAPS caps
            || env.gst_caps_can_intersect env.KMS_AGNOSTIC_VIDEO_CAPS caps then
          RelayBinding.mk handle w.next_element (w.next_element + 1)
            :: (relay_bindings w).filter (fun b => b.pad != handle)
        else relay_bindings w := by
  simp only [step]
  split_ifs with hc
  · obtain ⟨ab, hab⟩ := classified_bridge env
      { w with decoder_pads :=
        decoder_pad handle caps :: w.decoder_pads.filter (fun p => p.id != handle) }
      (decoder_pad handle caps) hc
    rw [hab, relay_bindings_pad_added_bridge]
    rfl
  · rw [unclassified_error env _ (decoder_pad handle caps) (by simpa using hc)]
    rfl

theorem decoder_pads_discovered (env : Env) (w : World) (handle : Nat) (caps : GstCaps) :
    (step env w (Event.StreamDiscovered handle caps)).decoder_pads
      = decoder_pad handle caps :: w.decoder_pads.filter (fun p => p.id != handle) := by
  simp only [step]
  exact (control_states (pad_added_control env _ (decoder_pad handle caps))).2.2.2.2.2

theorem step_ended_found (env : Env) (w : World) (handle : Nat) (pad : GstPad)
    (hf : w.decoder_pads.find? (fun p => p.id == handle) = some pad) :
    step env w (Event.StreamEnded handle)
      = pad_removed { w with decoder_pads := w.decoder_pads.filter (fun p => p.id != handle) }
          pad := by
  simp only [step, hf]

theorem step_ended_missing (env : Env) (w : World) (handle : Nat)
    (hf : w.decoder_pads.find? (fun p => p.id == handle) = none) :
    step env w (Event.StreamEnded handle) = w := by
  simp only [step, hf]

theorem bindings_ended (env : Env) (w : World) (handle : Nat)
    (h : bindings_on_decoder_pads w) :
    relay_bindings (step env w (Event.StreamEnded handle))
      = (relay_bindings w).filter (fun b => b.pad != handle) := by
  cases hf : w.decoder_pads.find? (fun p => p.id == handle) with
  | none =>
    rw [step_ended_missing env w handle hf]
    symm
    rw [List.filter_eq_self]
    intro b hb
    obtain ⟨pad, hpad, hid⟩ := h.1 b hb
    rw [List.find?_eq_none] at hf
    have := hf pad hpad
    rw [hid] at this
    simpa [bne] using this
  | some pad =>
    rw [step_ended_found env w handle pad hf]
    have hmem : pad ∈ w.decoder_pads := List.mem_of_find?_eq_some hf
    have hid : pad.id = handle := by simpa using List.find?_some hf
    rw [relay_bindings_pad_removed _ pad (h.2 pad hmem), hid]
    rfl

theorem step_preserves (env : Env) (w : World) (e : Event)
    (h : bindings_on_decoder_pads w) : bindings_on_decoder_pads (step env w e) := by
  cases e with
  | StreamDiscovered handle caps =>
    constructor
    · intro b hb
      rw [decoder_pads_discovered]
      rw [bindings_discovered] at hb
      have hold : ∀ b ∈ relay_bindings w, b.pad ≠ handle →
          ∃ pad ∈ decoder_pad handle caps :: w.decoder_pads.filter (fun p => p.id != handle),
            pad.id = b.pad := by
        intro b hb hne
        obtain ⟨pad, hpad, hid⟩ := h.1 b hb
        refine ⟨pad, List.mem_cons_of_mem _ (List.mem_filter.mpr ⟨hpad, ?_⟩), hid⟩
        simp [hid, hne]
      split_ifs at hb
      · rcases List.mem_cons.mp hb with heq | hmem
        · exact ⟨decoder_pad handle caps, List.mem_cons_self _ _, by rw [heq]; rfl⟩
        · have hm := List.mem_filter.mp hmem
          exact hold b hm.1 (by simpa using hm.2)
      · by_cases hne : b.pad = handle
        · exact ⟨decoder_pad handle caps, List.mem_cons_self _ _, by rw [hne]; rfl⟩
        · exact hold b hb hne
    · intro pad hpad
      rw [decoder_pads_discovered] at hpad
      rcases List.mem_cons.mp hpad with heq | hmem
      · rw [heq]; rfl
      · exact h.2 pad (List.mem_filter.mp hmem).1
  | StreamEnded handle =>
    constructor
    · intro b hb
      rw [bindings_ended env w handle h] at hb
      have hm := List.mem_filter.mp hb
      have hne : b.pad ≠ handle := by simpa using hm.2
      obtain ⟨pad, hpad, hid⟩ := h.1 b hm.1
      cases hf : w.decoder_pads.find? (fun p => p.id == handle) with
      | none =>
        rw [step_ended_missing env w handle hf]
        exact ⟨pad, hpad, hid⟩
      | some pad1 =>
        rw [step_ended_found env w handle pad1 hf,
          (control_states (pad_removed_control _ pad1)).2.2.2.2.2]
        refine ⟨pad, List.mem_filter.mpr ⟨hpad, ?_⟩, hid⟩
        simp [hid, hne]
    · intro pad hpad
      cases hf : w.decoder_pads.find? (fun p => p.id == handle) with
      | none =>
        rw [step_ended_missing env w handle hf] at hpad
        exact h.2 pad hpad
      | some pad1 =>
        rw [step_ended_found env w handle pad1 hf,
          (control_states (pad_removed_control _ pad1)).2.2.2.2.2] at hpad
        exact h.2 pad (List.mem_filter.mp hpad).1
  | start =>
    have hw : step env w Event.start
        = { w with uridecodebin_uri := w.uri, pipeline_state := GstState.GST_STATE_PLAYING,
                   state := KmsUriEndPointState.KMS_URI_END_POINT_STATE_START } := by
      simp only [step, kms_player_end_point_started,
        set_state_pipeline_other _ GstState.GST_STATE_PLAYING (by decide), change_state]
    rw [hw]
    exact h
  | pause =>
    have hw : step env w Event.pause
        = { w with pipeline_state := GstState.GST_STATE_PAUSED,
                   state := KmsUriEndPointState.KMS_URI_END_POINT_STATE_PAUSE } := by
      simp only [step, kms_player_end_point_paused,
        set_state_pipeline_other _ GstState.GST_STATE_PAUSED (by decide), change_state]
    rw [hw]
    exact h
  | stop =>
    have hs := stopped_bindings w h
    constructor
    · intro b hb
      have hb1 : b ∈ relay_bindings (kms_player_end_point_stopped w) := hb
      rw [hs.1] at hb1
      cases hb1
    · intro pad hpad
      have hp1 : pad ∈ (kms_player_end_point_stopped w).decoder_pads := hpad
      rw [hs.2] at hp1
      cases hp1
  | bus m =>
    simp only [step, bus_sync_signal_handler]
    split_ifs
    · exact h
    · exact h

theorem run_preserves (env : Env) (evs : List Event) :
    ∀ w : World, bindings_on_decoder_pads w → bindings_on_decoder_pads (run env w evs) := by
  induction evs with
  | nil => intro w h; exact h
  | cons e rest ih => intro w h; exact ih (step env w e) (step_preserves env w e h)

theorem init_bindings_on_decoder_pads (a v : Nat) (uri : Option String)
    (st : KmsUriEndPointState) (ss : GstState) :
    bindings_on_decoder_pads (kms_player_end_point_init a v uri st ss) :=
  ⟨fun b hb => (by cases hb), fun pad hpad => (by cases hpad)⟩

theorem bindings_unchanged_playing (env : Env) (w : World) :
    relay_bindings (step env w Event.start) = relay_bindings w
      ∧ relay_bindings (step env w Event.pause) = relay_bindings w := by
  constructor
  · apply relay_bindings_congr
    simp only [step, kms_player_end_point_started,
      set_state_pipeline_other _ GstState.GST_STATE_PLAYING (by decide), change_state]
  · apply relay_bindings_congr
    simp only [step, kms_player_end_point_paused,
      set_state_pipeline_other _ GstState.GST_STATE_PAUSED (by decide), change_state]

theorem bindings_unchanged_bus (env : Env) (w : World) (m : Nat) :
    relay_bindings (step env w (Event.bus m)) = relay_bindings w := by
  apply relay_bindings_congr
  simp only [step, bus_sync_signal_handler]
  split_ifs <;> rfl

theorem run_bindings (env : Env) (evs : List Event) :
    ∀ (w : World) (acc : List Nat), bindings_on_decoder_pads w →
      (relay_bindings w).map (fun b => b.pad) = acc →
      (relay_bindings (run env w evs)).map (fun b => b.pad) = open_classified env acc evs := by
  induction evs with
  | nil => intro w acc _ hacc; exact hacc
  | cons e rest ih =>
    intro w acc hinv hacc
    have hnext := step_preserves env w e hinv
    have hrun : run env w (e :: rest) = run env (step env w e) rest := rfl
    rw [hrun]
    cases e with
    | StreamDiscovered handle caps =>
      by_cases hc : (env.gst_caps_can_intersect env.KMS_AGNOSTIC_AUDIO_CAPS caps
          || env.gst_caps_can_intersect env.KMS_AGNOSTIC_VIDEO_CAPS caps) = true
      · have hoc : open_classified env acc (Event.StreamDiscovered handle caps :: rest)
            = open_classified env (handle :: acc.filter (fun h => h != handle)) rest := by
          simp only [open_classified, hc, if_true]
        rw [hoc]
        apply ih _ _ hnext
        rw [bindings_discovered, if_pos hc, List.map_cons, map_pad_filter, hacc]
      · have hoc : open_classified env acc (Event.StreamDiscovered handle caps :: rest)
            = open_classified env acc rest := by
          simp only [open_classified, hc, if_false, Bool.false_eq_true]
        rw [hoc]
        apply ih _ _ hnext
        rw [bindings_discovered, if_neg hc, hacc]
    | StreamEnded handle =>
      have hoc : open_classified env acc (Event.StreamEnded handle :: rest)
          = open_classified env (acc.filter (fun h => h != handle)) rest := by
        simp only [open_classified]
      rw [hoc]
      apply ih _ _ hnext
      rw [bindings_ended env w handle hinv, map_pad_filter, hacc]
    | start =>
      have hoc : open_classified env acc (Event.start :: rest)
          = open_classified env acc rest := by
        simp only [open_classified]
      rw [hoc]
      apply ih _ _ hnext
      rw [(bindings_unchanged_playing env w).1, hacc]
    | pause =>
      have hoc : open_classified env acc (Event.pause :: rest)
          = open_classified env acc rest := by
        simp only [open_classified]
      rw [hoc]
      apply ih _ _ hnext
      rw [(bindings_unchanged_playing env w).2, hacc]
    | stop =>
      have hoc : open_classified env acc (Event.stop :: rest)
          = open_classified env [] rest := by
        simp only [open_classified]
      rw [hoc]
      apply ih _ _ hnext
      have hs : relay_bindings (step env w Event.stop) = [] := (stopped_bindings w hinv).1
      rw [hs]
      rfl
    | bus m =>
      have hoc : open_classified env acc (Event.bus m :: rest)
          = open_classified env acc rest := by
        simp only [open_classified]
      rw [hoc]
      apply ih _ _ hnext
      rw [bindings_unchanged_bus, hacc]

theorem nodup_insert_handle (acc : List Nat) (handle : Nat) (h : acc.Nodup) :
    (handle :: acc.filter (fun x => x != handle)).Nodup := by
  rw [List.nodup_cons]
  refine ⟨?_, h.filter _⟩
  intro hmem
  have := (List.mem_filter.mp hmem).2
  simp at this

theorem open_classified_nodup (env : Env) (evs : List Event) :
    ∀ acc : List Nat, acc.Nodup → (open_classified env acc evs).Nodup := by
  induction evs with
  | nil => intro acc h; exact h
  | cons e rest ih =>
    intro acc h
    cases e with
    | StreamDiscovered handle caps =>
      simp only [open_classified]
      split_ifs
      · exact ih _ (nodup_insert_handle acc handle h)
      · exact ih _ h
    | StreamEnded handle =>
      simp only [open_classified]
      exact ih _ (h.filter _)
    | start => simp only [open_classified]; exact ih _ h
    | pause => simp only [open_classified]; exact ih _ h
    | stop => simp only [open_classified]; exact ih _ List.nodup_nil
    | bus m => simp only [open_classified]; exact ih _ h

/-! ## Stop and the stream invariant -/

/-- C4: on every world a fresh element reaches through any sequence of events
(so in any of the lifecycle states, with none, one or many relay bindings),
`stopped` leaves the reported state STOP, the internal pipeline at NULL and no
relay binding; taking the pipeline to NULL makes the decoder withdraw each of
its pads, and `pad_removed` runs for each.  A second `stopped` gives the same. -/
theorem stopped_clears_bindings (env : Env) (a v : Nat) (uri : Option String)
    (st : KmsUriEndPointState) (ss : GstState) (evs : List Event) :
    (kms_player_end_point_stopped
        (run env (kms_player_end_point_init a v uri st ss) evs)).state
        = KmsUriEndPointState.KMS_URI_END_POINT_STATE_STOP
      ∧ (kms_player_end_point_stopped
          (run env (kms_player_end_point_init a v uri st ss) evs)).pipeline_state
          = GstState.GST_STATE_NULL
      ∧ relay_bindings (kms_player_end_point_stopped
          (run env (kms_player_end_point_init a v uri st ss) evs)) = []
      ∧ (kms_player_end_point_stopped (kms_player_end_point_stopped
          (run env (kms_player_end_point_init a v uri st ss) evs))).state
          = KmsUriEndPointState.KMS_URI_END_POINT_STATE_STOP
      ∧ relay_bindings (kms_player_end_point_stopped (kms_player_end_point_stopped
          (run env (kms_player_end_point_init a v uri st ss) evs))) = [] := by
  have hinv := run_preserves env evs _ (init_bindings_on_decoder_pads a v uri st ss)
  have hinv2 := step_preserves env _ Event.stop hinv
  exact ⟨(stopped_states _).2, (stopped_states _).1, (stopped_bindings _ hinv).1,
    (stopped_states _).2, (stopped_bindings _ hinv2).1⟩

/-- A started element with an audio and a video stream has two bindings, and none after `stopped`. -/
theorem stopped_two_streams_example :
    (relay_bindings (run env_ok world0 [Event.start, Event.StreamDiscovered 7 "audio/x-raw",
        Event.StreamDiscovered 8 "video/x-raw"])).length = 2
      ∧ relay_bindings (kms_player_end_point_stopped (run env_ok world0 [Event.start,
          Event.StreamDiscovered 7 "audio/x-raw", Event.StreamDiscovered 8 "video/x-raw"]))
          = [] := by
  decide

/-- C3, as the claim states it, fails: two audio streams discovered one after the
other, neither ended, give two bindings linked to the audio agnosticbin. -/
theorem two_audio_bindings_counterexample :
    (audio_bindings (run env_ok world0 [Event.StreamDiscovered 7 "audio/x-raw",
        Event.StreamDiscovered 8 "audio/x-raw"])).length = 2
      ∧ ¬ (audio_bindings (run env_ok world0 [Event.StreamDiscovered 7 "audio/x-raw",
        Event.StreamDiscovered 8 "audio/x-raw"])).length ≤ 1 := by
  decide

/-- C3, amended: after any sequence of events on a fresh element the pads that
carry a relay binding are exactly the streams that were discovered with caps
of one of the two families and have not ended (by `pad-removed` or by a stop),
so there are as many bindings as such streams, and no pad carries two.  The
code sets no bound on the number of bindings of one media kind. -/
theorem bindings_match_open_streams (env : Env) (a v : Nat) (uri : Option String)
    (st : KmsUriEndPointState) (ss : GstState) (evs : List Event) :
    (relay_bindings (run env (kms_player_end_point_init a v uri st ss) evs)).map
        (fun b => b.pad) = open_classified env [] evs
      ∧ (relay_bindings (run env (kms_player_end_point_init a v uri st ss) evs)).length
          = (open_classified env [] evs).length
      ∧ ((relay_bindings (run env (kms_player_end_point_init a v uri st ss) evs)).map
          (fun b => b.pad)).Nodup := by
  have h := run_bindings env evs (kms_player_end_point_init a v uri st ss) []
    (init_bindings_on_decoder_pads a v uri st ss) rfl
  refine ⟨h, ?_, ?_⟩
  · rw [← h, List.length_map]
  · rw [h]
    exact open_classified_nodup env evs [] List.nodup_nil

end KmsPlayerEndPoint
